import Mathlib

/-!
Verification development for the pose-to-skeleton retargeting engine of the
VTO repository. The definitions below are a shallow embedding of the
rigging code: landmark arithmetic, the Strategy-B single-axis solver with
its calibration constants, the per-key exponential smoother, the
multi-armature bone application, rest-pose capture, the bone-name matcher,
and the direction-to-rotation quaternion helpers. JavaScript numbers are
modelled as real numbers; JS Map objects as functions from keys to
optional values (set overwrites, get returns the latest value); operations
that produce NaN in JS (acos outside its domain) as Option-valued
functions.
-/

namespace VTO

/-- A MediaPipe landmark sample: normalized image-space coordinates. -/
structure Landmark where
  x : ℝ
  y : ℝ

/-- A pose frame: landmark index to sample (MP_LANDMARKS indexing). -/
abbrev PoseFrame := Nat → Landmark

/-- MP_LANDMARKS.LEFT_SHOULDER. -/
def LEFT_SHOULDER : Nat := 11

/-- MP_LANDMARKS.RIGHT_SHOULDER. -/
def RIGHT_SHOULDER : Nat := 12

/-- MP_LANDMARKS.LEFT_ELBOW. -/
def LEFT_ELBOW : Nat := 13

/-- MP_LANDMARKS.RIGHT_ELBOW. -/
def RIGHT_ELBOW : Nat := 14

/-- A three.js Euler rotation value (x, y, z in radians). -/
structure Euler3 where
  x : ℝ
  y : ℝ
  z : ℝ

/-- A bone of the skeletal scene graph: its name and local rotation. -/
structure BoneState where
  name : String
  rotation : Euler3

/-- A JS Map from string keys to Euler values, as lookup semantics. -/
abbrev SMap := String → Option Euler3

/-- The empty map. -/
def mEmpty : SMap := fun _ => none

/-- JS Map.set: overwrites the entry for the key. -/
def mset (m : SMap) (k : String) (v : Euler3) : SMap :=
  fun q => if q = k then some v else m q

/-- DEG2RAD constant of part_008: Math.PI / 180. -/
noncomputable def DEG2RAD : ℝ := Real.pi / 180

/-- Y_ROTATION_ARMS_DOWN constant of part_008 (degrees). -/
noncomputable def Y_ROTATION_ARMS_DOWN : ℝ := 13

/-- Y_ROTATION_T_POSE constant of part_008 (degrees). -/
noncomputable def Y_ROTATION_T_POSE : ℝ := -48

/-- One scalar step of the single-pole filter: s + (t - s) * a. -/
noncomputable def smoothStep (s t a : ℝ) : ℝ := s + (t - s) * a

/-- The smoothing update of applyArmRotation / applyRotationToAll: a missing
entry is initialized to the raw target, an existing entry is filtered
per axis with factor a. -/
noncomputable def smoothNext (cur : Option Euler3) (x y z a : ℝ) : Euler3 :=
  match cur with
  | none => ⟨x, y, z⟩
  | some s => ⟨smoothStep s.x x a, smoothStep s.y y a, smoothStep s.z z a⟩

/-- The bone write of applyArmRotation (part_008 lines 173-179): when the
rest map has an entry for the bone name, all three axes become
rest + smoothed; otherwise the rotation is left as it was. -/
noncomputable def writeBoneRel (rest : SMap) (s : Euler3) (b : BoneState) : BoneState :=
  match rest b.name with
  | some r => ⟨b.name, ⟨r.x + s.x, r.y + s.y, r.z + s.z⟩⟩
  | none => b

/-- applyArmRotation of part_008 (lines 152-183): skip when the bone list is
empty, otherwise update the smoothing entry for the key and write the
smoothed value to every bone of the list. Returns the new smoothing map
and the updated bone list. -/
noncomputable def applyArmRotation (rest : SMap) (bones : List BoneState) (smooth : SMap)
    (key : String) (x y z a : ℝ) : SMap × List BoneState :=
  if bones.isEmpty then (smooth, bones)
  else
    (mset smooth key (smoothNext (smooth key) x y z a),
     bones.map (writeBoneRel rest (smoothNext (smooth key) x y z a)))

/-- rest ? rest.x : 0 of useBodyModelRigging.ts line 171. -/
noncomputable def restX (rest : SMap) (n : String) : ℝ :=
  match rest n with
  | some r => r.x
  | none => 0

/-- rest ? rest.y : 0 of useBodyModelRigging.ts line 172. -/
noncomputable def restY (rest : SMap) (n : String) : ℝ :=
  match rest n with
  | some r => r.y
  | none => 0

/-- The bone write of applyRotationToAll (useBodyModelRigging.ts lines
169-176): x and y compose with the rest pose, z is written absolutely. -/
noncomputable def writeBoneAbsZ (rest : SMap) (s : Euler3) (b : BoneState) : BoneState :=
  ⟨b.name, ⟨restX rest b.name + s.x, restY rest b.name + s.y, s.z⟩⟩

/-- applyRotationToAll of useBodyModelRigging.ts (lines 153-177). -/
noncomputable def applyRotationToAll (rest : SMap) (bones : List BoneState) (smooth : SMap)
    (key : String) (x y z a : ℝ) : SMap × List BoneState :=
  if bones.isEmpty then (smooth, bones)
  else
    (mset smooth key (smoothNext (smooth key) x y z a),
     bones.map (writeBoneAbsZ rest (smoothNext (smooth key) x y z a)))

/-- Rest-pose capture of both rigging hooks: record every bone rotation
into a map keyed by bone name, in list order (JS Map.set overwrites). -/
noncomputable def captureRestPoses (bones : List BoneState) : SMap :=
  bones.foldl (fun m b => mset m b.name b.rotation) mEmpty

/-- Math.atan2 (y, x), by quadrant. -/
noncomputable def atan2 (y x : ℝ) : ℝ :=
  if 0 < x then Real.arctan (y / x)
  else if x < 0 then
    (if 0 ≤ y then Real.arctan (y / x) + Real.pi else Real.arctan (y / x) - Real.pi)
  else if 0 < y then Real.pi / 2
  else if y < 0 then -(Real.pi / 2)
  else 0

/-- calcArmRatio of part_008 (lines 287-300): angle from the vertical arm
direction, mapped to a ratio and clamped to [0, 1]. -/
noncomputable def calcArmRatio (shoulder elbow : Landmark) : ℝ :=
  max 0 (min 1
    ((atan2 (-(elbow.y - shoulder.y)) |elbow.x - shoulder.x| + Real.pi / 2) / (Real.pi / 2)))

/-- mapToYRotation of part_008 (lines 305-310): interpolate between the two
calibration angles and convert to radians. -/
noncomputable def mapToYRotation (ratio : ℝ) : ℝ :=
  (Y_ROTATION_ARMS_DOWN + (Y_ROTATION_T_POSE - Y_ROTATION_ARMS_DOWN) * ratio) * DEG2RAD

/-- Spec formulation (section 4.1): verticalArmAngle = atan2 (-dy, |dx|). -/
noncomputable def verticalArmAngle (shoulder elbow : Landmark) : ℝ :=
  atan2 (-(elbow.y - shoulder.y)) |elbow.x - shoulder.x|

/-- Spec formulation (section 4.4, Strategy B): map the angle linearly from
the interval [-pi/2, 0] to [0, 1] and clamp to [0, 1]. -/
noncomputable def ratioFromAngle (t : ℝ) : ℝ :=
  max 0 (min 1 ((t - (-(Real.pi / 2))) / (0 - (-(Real.pi / 2)))))

/-- Spec formulation (section 4.4, Strategy B): the rotation is the linear
interpolation between the arms-down and T-pose calibration endpoints. -/
noncomputable def lerpCalibration (r : ℝ) : ℝ :=
  ((1 - r) * Y_ROTATION_ARMS_DOWN + r * Y_ROTATION_T_POSE) * DEG2RAD

/-- The debug-store values consumed by part_008 (debugStore.ts). -/
structure DebugValues where
  leftUpperArmX : ℝ
  leftUpperArmY : ℝ
  leftUpperArmZ : ℝ
  leftLowerArmX : ℝ
  leftLowerArmY : ℝ
  leftLowerArmZ : ℝ
  rightUpperArmX : ℝ
  rightUpperArmY : ℝ
  rightUpperArmZ : ℝ
  rightLowerArmX : ℝ
  rightLowerArmY : ℝ
  rightLowerArmZ : ℝ
  smoothingFactor : ℝ
  enableTracking : Bool
  useManualRotations : Bool

/-- The default store values of debugStore.ts (sliders 0, factor 0.35,
tracking on, manual off). -/
noncomputable def defaultDebugValues : DebugValues :=
  ⟨0, 0, 0, 0, 0, 0, 0, 0, 0, 0, 0, 0, 0.35, true, false⟩

/-- The model transform written by part_008: position, uniform scale and y
rotation. -/
structure ModelTransform where
  posX : ℝ
  posY : ℝ
  posZ : ℝ
  scaleFactor : ℝ
  rotY : ℝ

/-- The mutable state of the part_008 hook: the four resolved bone lists,
the captured rest poses, the smoothing map and the model transform. -/
structure RigState where
  upperarmLBones : List BoneState
  upperarmRBones : List BoneState
  lowerarmLBones : List BoneState
  lowerarmRBones : List BoneState
  rest : SMap
  smooth : SMap
  model : ModelTransform

/-- Manual mode of part_008 (lines 186-220): apply the slider values,
converted to radians, through applyArmRotation in source order, then zero
the model y rotation. -/
noncomputable def manualModeUpdate (dv : DebugValues) (st : RigState) : RigState :=
  let p1 := applyArmRotation st.rest st.upperarmLBones st.smooth "upperarm_l"
    (dv.leftUpperArmX * DEG2RAD) (dv.leftUpperArmY * DEG2RAD) (dv.leftUpperArmZ * DEG2RAD)
    dv.smoothingFactor
  let p2 := applyArmRotation st.rest st.lowerarmLBones p1.1 "lowerarm_l"
    (dv.leftLowerArmX * DEG2RAD) (dv.leftLowerArmY * DEG2RAD) (dv.leftLowerArmZ * DEG2RAD)
    dv.smoothingFactor
  let p3 := applyArmRotation st.rest st.upperarmRBones p2.1 "upperarm_r"
    (dv.rightUpperArmX * DEG2RAD) (dv.rightUpperArmY * DEG2RAD) (dv.rightUpperArmZ * DEG2RAD)
    dv.smoothingFactor
  let p4 := applyArmRotation st.rest st.lowerarmRBones p3.1 "lowerarm_r"
    (dv.rightLowerArmX * DEG2RAD) (dv.rightLowerArmY * DEG2RAD) (dv.rightLowerArmZ * DEG2RAD)
    dv.smoothingFactor
  { st with
    smooth := p4.1
    upperarmLBones := p1.2
    lowerarmLBones := p2.2
    upperarmRBones := p3.2
    lowerarmRBones := p4.2
    model := { st.model with rotY := 0 } }

/-- Tracking mode of part_008 (lines 222-332): clamp position and scale from
the shoulder landmarks, zero the model y rotation, then drive the upper
arms from the arm ratio and hold the lower arms at rest. -/
noncomputable def trackingModeUpdate (mirrored : Bool) (dv : DebugValues) (st : RigState)
    (pose : PoseFrame) : RigState :=
  let m : ℝ := if mirrored then -1 else 1
  let shoulderWidth : ℝ := Real.sqrt
    (((pose LEFT_SHOULDER).x - (pose RIGHT_SHOULDER).x) ^ 2 +
     ((pose LEFT_SHOULDER).y - (pose RIGHT_SHOULDER).y) ^ 2)
  let rawX : ℝ := (((pose LEFT_SHOULDER).x + (pose RIGHT_SHOULDER).x) / 2 - 0.5) * m * 2
  let rawY : ℝ := -(((pose LEFT_SHOULDER).y + (pose RIGHT_SHOULDER).y) / 2 - 0.5) * 2 - 2.5
  let lSh := if mirrored then pose RIGHT_SHOULDER else pose LEFT_SHOULDER
  let lEl := if mirrored then pose RIGHT_ELBOW else pose LEFT_ELBOW
  let rSh := if mirrored then pose LEFT_SHOULDER else pose RIGHT_SHOULDER
  let rEl := if mirrored then pose LEFT_ELBOW else pose RIGHT_ELBOW
  let p1 := applyArmRotation st.rest st.upperarmLBones st.smooth "upperarm_l"
    0 (mapToYRotation (calcArmRatio lSh lEl)) 0 dv.smoothingFactor
  let p2 := applyArmRotation st.rest st.upperarmRBones p1.1 "upperarm_r"
    0 (mapToYRotation (calcArmRatio rSh rEl)) 0 dv.smoothingFactor
  let p3 := applyArmRotation st.rest st.lowerarmLBones p2.1 "lowerarm_l"
    0 0 0 dv.smoothingFactor
  let p4 := applyArmRotation st.rest st.lowerarmRBones p3.1 "lowerarm_r"
    0 0 0 dv.smoothingFactor
  { st with
    smooth := p4.1
    upperarmLBones := p1.2
    upperarmRBones := p2.2
    lowerarmLBones := p3.2
    lowerarmRBones := p4.2
    model :=
      { posX := max (-0.6) (min 0.6 rawX)
        posY := max (-7.0) (min 0.9 rawY)
        posZ := 0
        scaleFactor := max 0.6 (min 1.8 (shoulderWidth * 8))
        rotY := 0 } }

/-- The per-frame effect of part_008 (lines 129-346): skip when neither
tracking nor manual mode is on, run the manual path when manual rotations
are enabled, otherwise require a pose frame and run the tracking path. -/
noncomputable def frameUpdate (dv : DebugValues) (mirrored : Bool) (st : RigState)
    (frame : Option PoseFrame) : RigState :=
  if !dv.enableTracking && !dv.useManualRotations then st
  else if dv.useManualRotations then manualModeUpdate dv st
  else
    match frame with
    | none => st
    | some pose => trackingModeUpdate mirrored dv st pose

/-- Lowercased characters of a name: bone.name.toLowerCase(). -/
def lowerChars (s : String) : List Char := s.data.map Char.toLower

/-- A prefix test on character lists. -/
def charsPrefixOf : List Char → List Char → Bool
  | [], _ => true
  | _ :: _, [] => false
  | a :: as, b :: bs => a == b && charsPrefixOf as bs

/-- A contiguous-substring test on character lists. -/
def charsInfixOf (p : List Char) : List Char → Bool
  | [] => charsPrefixOf p []
  | c :: rest => charsPrefixOf p (c :: rest) || charsInfixOf p rest

/-- name.includes(pat) on a lowercased name. -/
def nameIncludes (n : List Char) (pat : String) : Bool := charsInfixOf pat.data n

/-- The exclusion markers of the upper-arm matcher in useBodyModelRigging.ts
(lines 55-67). -/
def EXCLUDED_MARKERS : List String :=
  ["twist", "corrective", "_in", "_out", "_fwd", "_bck", "bicep", "tricep"]

/-- The upperarm_l matcher of useBodyModelRigging.ts (lines 55-67): the
lowercased name must contain upperarm_l and none of the excluded markers. -/
def matchUpperarmL (name : String) : Bool :=
  nameIncludes (lowerChars name) "upperarm_l" &&
  !(nameIncludes (lowerChars name) "twist") &&
  !(nameIncludes (lowerChars name) "corrective") &&
  !(nameIncludes (lowerChars name) "_in") &&
  !(nameIncludes (lowerChars name) "_out") &&
  !(nameIncludes (lowerChars name) "_fwd") &&
  !(nameIncludes (lowerChars name) "_bck") &&
  !(nameIncludes (lowerChars name) "bicep") &&
  !(nameIncludes (lowerChars name) "tricep")

/-- The bone collection pass for key upperarm_l: every bone of the skeleton
passing the matcher, in traversal order. -/
def collectUpperarmL (bones : List BoneState) : List BoneState :=
  bones.filter (fun b => matchUpperarmL b.name)

/-- The leftUpperArm candidate fragments of BONE_NAME_PATTERNS
(poseRetargeting concatenation in debugStore.ts, line 274), most specific
first. -/
def LEFT_UPPER_ARM_PATTERNS : List String :=
  ["upperarm_l", "leftarm", "l_upperarm", "arm_l", "upper_arm.l", "upperarm.l"]

/-- findBoneByPattern of the poseRetargeting concatenation in debugStore.ts
(lines 301-328), at a candidate list: a first pass of exact
case-insensitive matches in priority order, then a substring pass
rejecting names that contain twist, corrective, underscore-delimited
in/out, fwd or bck; the first hit wins, none when nothing matches. -/
def findBoneByPattern (patterns : List String) (bones : List BoneState) : Option BoneState :=
  match patterns.findSome? (fun pat =>
      bones.find? (fun b => lowerChars b.name == lowerChars pat)) with
  | some b => some b
  | none =>
    patterns.findSome? (fun pat =>
      bones.find? (fun b =>
        charsInfixOf (lowerChars pat) (lowerChars b.name) &&
        !(nameIncludes (lowerChars b.name) "twist") &&
        !(nameIncludes (lowerChars b.name) "corrective") &&
        !(nameIncludes (lowerChars b.name) "_in_") &&
        !(nameIncludes (lowerChars b.name) "_out_") &&
        !(nameIncludes (lowerChars b.name) "_fwd") &&
        !(nameIncludes (lowerChars b.name) "_bck")))

/-- A three.js Vector3 over the reals. -/
structure Vec3 where
  x : ℝ
  y : ℝ
  z : ℝ

/-- Vector3.lengthSq. -/
noncomputable def vLengthSq (v : Vec3) : ℝ := v.x * v.x + v.y * v.y + v.z * v.z

/-- Vector3.length. -/
noncomputable def vLength (v : Vec3) : ℝ := Real.sqrt (vLengthSq v)

/-- Vector3.dot. -/
noncomputable def vDot (a b : Vec3) : ℝ := a.x * b.x + a.y * b.y + a.z * b.z

/-- Vector3.cross. -/
noncomputable def vCross (a b : Vec3) : Vec3 :=
  ⟨a.y * b.z - a.z * b.y, a.z * b.x - a.x * b.z, a.x * b.y - a.y * b.x⟩

/-- Vector3.normalize as three.js implements it: divide by the length, or by
1 when the length is zero (length() || 1), so the zero vector stays zero. -/
noncomputable def threeNormalize (v : Vec3) : Vec3 :=
  ⟨v.x / (if vLength v = 0 then 1 else vLength v),
   v.y / (if vLength v = 0 then 1 else vLength v),
   v.z / (if vLength v = 0 then 1 else vLength v)⟩

/-- A three.js quaternion over the reals. -/
structure Quat where
  x : ℝ
  y : ℝ
  z : ℝ
  w : ℝ

/-- Quaternion.identity(). -/
noncomputable def qIdentity : Quat := ⟨0, 0, 0, 1⟩

/-- Quaternion.setFromAxisAngle. -/
noncomputable def setFromAxisAngle (axis : Vec3) (angle : ℝ) : Quat :=
  ⟨axis.x * Real.sin (angle / 2), axis.y * Real.sin (angle / 2),
   axis.z * Real.sin (angle / 2), Real.cos (angle / 2)⟩

/-- Math.acos modelled as a partial function: outside [-1, 1] JS returns
NaN, here none. -/
noncomputable def acosOpt (t : ℝ) : Option ℝ :=
  if -1 ≤ t ∧ t ≤ 1 then some (Real.arccos t) else none

/-- quaternionFromDirections of boneMapping (debugStore.ts concatenation,
lines 168-189): normalize both directions, shortcut the parallel and
anti-parallel cases, otherwise rotate about the normalized cross product by
the arc cosine of the clamped dot product. -/
noncomputable def quaternionFromDirections (u v : Vec3) : Option Quat :=
  if vDot (threeNormalize u) (threeNormalize v) > 0.9999 then some qIdentity
  else if vDot (threeNormalize u) (threeNormalize v) < -0.9999 then
    some (setFromAxisAngle
      (threeNormalize (vCross (threeNormalize u)
        (if |(threeNormalize u).x| < 0.9 then ⟨1, 0, 0⟩ else ⟨0, 1, 0⟩)))
      Real.pi)
  else
    (acosOpt (max (-1) (min 1 (vDot (threeNormalize u) (threeNormalize v))))).map
      (fun angle =>
        setFromAxisAngle (threeNormalize (vCross (threeNormalize u) (threeNormalize v))) angle)

/-- getRotationBetweenVectors of poseRetargeting (debugStore.ts
concatenation, lines 354-377): the anti-parallel branch picks the cross
product with the x axis, falling back to the y axis when it is short. -/
noncomputable def getRotationBetweenVectors (u v : Vec3) : Option Quat :=
  if vDot (threeNormalize u) (threeNormalize v) > 0.9999 then some qIdentity
  else if vDot (threeNormalize u) (threeNormalize v) < -0.9999 then
    some (setFromAxisAngle
      (threeNormalize
        (if vLengthSq (vCross ⟨1, 0, 0⟩ (threeNormalize u)) < 0.001 then
          vCross ⟨0, 1, 0⟩ (threeNormalize u)
        else vCross ⟨1, 0, 0⟩ (threeNormalize u)))
      Real.pi)
  else
    (acosOpt (max (-1) (min 1 (vDot (threeNormalize u) (threeNormalize v))))).map
      (fun angle =>
        setFromAxisAngle (threeNormalize (vCross (threeNormalize u) (threeNormalize v))) angle)

/-- The model transform clamp invariant of the tracking mode of part_008
(lines 239-272). -/
def clampOk (mt : ModelTransform) : Prop :=
  -0.6 ≤ mt.posX ∧ mt.posX ≤ 0.6 ∧
  -7.0 ≤ mt.posY ∧ mt.posY ≤ 0.9 ∧
  mt.posZ = 0 ∧
  0.6 ≤ mt.scaleFactor ∧ mt.scaleFactor ≤ 1.8 ∧
  mt.rotY = 0

/-- The landmark frame of the end-to-end scenario of the spec (section 8):
both shoulders at (0.3, 0.4), both elbows and everything past them at
(0.3, 0.6). -/
noncomputable def poseC1 : PoseFrame :=
  fun i => if i < 13 then ⟨0.3, 0.4⟩ else ⟨0.3, 0.6⟩

/-- A bound rig for the scenario: one left-upper-arm bone at rest rotation
zero, rest poses captured, smoothing empty. -/
noncomputable def rigC1 : RigState :=
  { upperarmLBones := [⟨"upperarm_l", ⟨0, 0, 0⟩⟩]
    upperarmRBones := []
    lowerarmLBones := []
    lowerarmRBones := []
    rest := captureRestPoses [⟨"upperarm_l", ⟨0, 0, 0⟩⟩]
    smooth := mEmpty
    model := ⟨0, 0, 0, 1, 0⟩ }

/-- One update cycle of the scenario: the part_008 frame effect under the
default store values, unmirrored, fed the scenario frame. -/
noncomputable def stepC1 : RigState → RigState :=
  fun st => frameUpdate defaultDebugValues false st (some poseC1)

/-- Two bones of duplicate armatures sharing the name upperarm_l but bound
with different rest rotations. -/
noncomputable def dupRestBones : List BoneState :=
  [⟨"upperarm_l", ⟨0, 0, 0⟩⟩, ⟨"upperarm_l", ⟨1, 0, 0⟩⟩]

/-- The rotation of the last bone of the list carrying a given name, if
any: the value a name-keyed overwrite-on-set map retains. Stated by the
amended rest-pose claim and compared against captureRestPoses. -/
noncomputable def lastRestOf (bones : List BoneState) (n : String) : Option Euler3 :=
  match bones with
  | [] => none
  | b :: bs => Option.or (lastRestOf bs n) (if b.name = n then some b.rotation else none)

/-- Lookup after setting the same key. -/
lemma mset_self (m : SMap) (k : String) (v : Euler3) : mset m k v k = some v := by
  simp [mset]

/-- Lookup after setting a different key. -/
lemma mset_other (m : SMap) (k q : String) (v : Euler3) (h : q ≠ k) : mset m k v q = m q := by
  simp [mset, h]

/-- The smoothing map returned by applyArmRotation. -/
lemma applyArm_fst (rest : SMap) (bones : List BoneState) (smooth : SMap) (key : String)
    (x y z a : ℝ) :
    (applyArmRotation rest bones smooth key x y z a).1 =
      if bones.isEmpty then smooth else mset smooth key (smoothNext (smooth key) x y z a) := by
  unfold applyArmRotation
  split <;> rfl

/-- The bone list returned by applyArmRotation. -/
lemma applyArm_snd (rest : SMap) (bones : List BoneState) (smooth : SMap) (key : String)
    (x y z a : ℝ) :
    (applyArmRotation rest bones smooth key x y z a).2 =
      if bones.isEmpty then bones
      else bones.map (writeBoneRel rest (smoothNext (smooth key) x y z a)) := by
  unfold applyArmRotation
  split <;> rfl

/-- With a non-empty bone list the key's smoothing entry becomes the filter
update of its previous value. -/
lemma applyArm_fst_self (rest : SMap) (bones : List BoneState) (smooth : SMap) (key : String)
    (x y z a : ℝ) (h : bones.isEmpty = false) :
    (applyArmRotation rest bones smooth key x y z a).1 key =
      some (smoothNext (smooth key) x y z a) := by
  rw [applyArm_fst, h]
  simp [mset_self]

/-- Other keys of the smoothing map are untouched by applyArmRotation. -/
lemma applyArm_fst_other (rest : SMap) (bones : List BoneState) (smooth : SMap) (key q : String)
    (x y z a : ℝ) (h : q ≠ key) :
    (applyArmRotation rest bones smooth key x y z a).1 q = smooth q := by
  rw [applyArm_fst]
  split
  · rfl
  · exact mset_other _ _ _ _ h

/-- C6. For a Joint Key not yet present in the smoothing state, the first
update through either application helper stores the raw target exactly,
on every axis. -/
theorem firstUpdateExact (rest : SMap) (bones : List BoneState) (smooth : SMap) (key : String)
    (x y z a : ℝ) (h1 : smooth key = none) (h2 : bones.isEmpty = false) :
    (applyArmRotation rest bones smooth key x y z a).1 key = some ⟨x, y, z⟩ ∧
    (applyRotationToAll rest bones smooth key x y z a).1 key = some ⟨x, y, z⟩ := by
  constructor
  · rw [applyArm_fst_self rest bones smooth key x y z a h2, h1]
    rfl
  · unfold applyRotationToAll
    rw [h2]
    simp only [Bool.false_eq_true, if_false, h1]
    simp [mset_self]
    rfl

/-- Witness for C6 at a concrete one-bone rig and empty smoothing map. -/
theorem firstUpdateExact_witness :
    (applyArmRotation mEmpty [⟨"upperarm_l", ⟨0, 0, 0⟩⟩] mEmpty "upperarm_l" 1 2 3 0.35).1
        "upperarm_l" = some ⟨1, 2, 3⟩ ∧
    (applyRotationToAll mEmpty [⟨"upperarm_l", ⟨0, 0, 0⟩⟩] mEmpty "upperarm_l" 1 2 3 0.35).1
        "upperarm_l" = some ⟨1, 2, 3⟩ :=
  firstUpdateExact mEmpty [⟨"upperarm_l", ⟨0, 0, 0⟩⟩] mEmpty "upperarm_l" 1 2 3 0.35 rfl rfl

/-- The distance to the target after one filter step. -/
lemma smoothStep_dist (s t a : ℝ) (h1 : 0 < a) (h2 : a ≤ 1) :
    |smoothStep s t a - t| = (1 - a) * |s - t| := by
  have : smoothStep s t a - t = (1 - a) * (s - t) := by
    unfold smoothStep
    ring
  rw [this, abs_mul, abs_of_nonneg (by linarith : (0:ℝ) ≤ 1 - a)]

/-- Closed form of the distance after n filter steps. -/
lemma smoothStep_iterate_dist (s t a : ℝ) (h1 : 0 < a) (h2 : a ≤ 1) (n : ℕ) :
    |(fun u => smoothStep u t a)^[n] s - t| = (1 - a) ^ n * |s - t| := by
  induction n with
  | zero => simp
  | succ k ih =>
    rw [Function.iterate_succ_apply', smoothStep_dist _ _ _ h1 h2, ih, pow_succ]
    ring

/-- C7. The single-pole filter contracts the distance to a fixed target by
the factor 1 - a each step, never overshoots to the far side of the
target, and eventually comes within any positive distance of it. -/
theorem smootherContract (s t a : ℝ) (h1 : 0 < a) (h2 : a ≤ 1) :
    |smoothStep s t a - t| = (1 - a) * |s - t| ∧
    |smoothStep s t a - t| ≤ |s - t| ∧
    (s ≤ t → s ≤ smoothStep s t a ∧ smoothStep s t a ≤ t) ∧
    (t ≤ s → t ≤ smoothStep s t a ∧ smoothStep s t a ≤ s) ∧
    (∀ ep : ℝ, 0 < ep → ∃ n : ℕ, |(fun u => smoothStep u t a)^[n] s - t| < ep) := by
  refine ⟨smoothStep_dist s t a h1 h2, ?_, ?_, ?_, ?_⟩
  · rw [smoothStep_dist s t a h1 h2]
    have hd : (0:ℝ) ≤ |s - t| := abs_nonneg _
    nlinarith
  · intro h
    unfold smoothStep
    constructor <;> nlinarith
  · intro h
    unfold smoothStep
    constructor <;> nlinarith
  · intro ep hep
    have hr1 : (1 - a) < 1 := by linarith
    have hr0 : (0:ℝ) ≤ 1 - a := by linarith
    have habs : (0:ℝ) < |s - t| + 1 := by positivity
    obtain ⟨n, hn⟩ := exists_pow_lt_of_lt_one
      (show (0:ℝ) < ep / (|s - t| + 1) by positivity) hr1
    refine ⟨n, ?_⟩
    rw [smoothStep_iterate_dist s t a h1 h2 n]
    rw [lt_div_iff habs] at hn
    have hpow : (0:ℝ) ≤ (1 - a) ^ n := pow_nonneg hr0 n
    nlinarith [abs_nonneg (s - t)]

/-- Witness for C7 at s = 0, t = 1, a = 1/2. -/
theorem smootherContract_witness :
    |smoothStep 0 1 (1/2) - 1| = (1 - 1/2) * |(0:ℝ) - 1| ∧
    |smoothStep 0 1 (1/2) - 1| ≤ |(0:ℝ) - 1| ∧
    ((0:ℝ) ≤ 1 → (0:ℝ) ≤ smoothStep 0 1 (1/2) ∧ smoothStep 0 1 (1/2) ≤ 1) ∧
    ((1:ℝ) ≤ 0 → (1:ℝ) ≤ smoothStep 0 1 (1/2) ∧ smoothStep 0 1 (1/2) ≤ 0) ∧
    (∀ ep : ℝ, 0 < ep → ∃ n : ℕ, |(fun u => smoothStep u 1 (1/2))^[n] 0 - 1| < ep) :=
  smootherContract 0 1 (1/2) (by norm_num) (by norm_num)

/-- C9. With manual rotations off, a null or landmark-free frame leaves the
whole rig state unchanged: smoothing map, every bone rotation and the
model transform are all retained. -/
theorem nullFrameNoOp (dv : DebugValues) (mirrored : Bool) (st : RigState)
    (h : dv.useManualRotations = false) :
    frameUpdate dv mirrored st none = st := by
  unfold frameUpdate
  rw [h]
  cases dv.enableTracking <;> simp

/-- Witness for C9 at the default store values and the scenario rig. -/
theorem nullFrameNoOp_witness : frameUpdate defaultDebugValues false rigC1 none = rigC1 :=
  nullFrameNoOp defaultDebugValues false rigC1 rfl

/-- C10. Every tracking-mode update with a landmark frame leaves the model
transform inside the clamp box, whatever the landmark values are. -/
theorem clampInvariant (dv : DebugValues) (mirrored : Bool) (st : RigState) (pose : PoseFrame)
    (h1 : dv.useManualRotations = false) (h2 : dv.enableTracking = true) :
    clampOk (frameUpdate dv mirrored st (some pose)).model := by
  unfold frameUpdate
  rw [h1, h2]
  simp only [Bool.not_true, Bool.not_false, Bool.false_and, Bool.false_eq_true, if_false]
  unfold trackingModeUpdate clampOk
  refine ⟨le_max_left _ _, max_le (by norm_num) (min_le_left _ _),
    le_max_left _ _, max_le (by norm_num) (min_le_left _ _), rfl,
    le_max_left _ _, max_le (by norm_num) (min_le_left _ _), rfl⟩

/-- Witness for C10 at the default store values, the scenario rig and the
scenario frame. -/
theorem clampInvariant_witness :
    clampOk (frameUpdate defaultDebugValues false rigC1 (some poseC1)).model :=
  clampInvariant defaultDebugValues false rigC1 poseC1 rfl rfl

/-- C3. One update writes the same smoothed value to every bone of the
binding: the new smoothing entry is some s, every indexed bone with a
captured rest pose receives exactly rest + s, and two bones sharing a name
end with identical rotations. The applyRotationToAll variant likewise
writes its value to every indexed bone. -/
theorem fanOutAllBones (rest : SMap) (bones : List BoneState) (smooth : SMap) (key : String)
    (x y z a : ℝ) (h : bones.isEmpty = false) :
    ∃ s : Euler3,
      (applyArmRotation rest bones smooth key x y z a).1 key = some s ∧
      (∀ i : ℕ, ∀ b : BoneState, ∀ r : Euler3,
        bones[i]? = some b → rest b.name = some r →
        (applyArmRotation rest bones smooth key x y z a).2[i]? =
          some ⟨b.name, ⟨r.x + s.x, r.y + s.y, r.z + s.z⟩⟩) ∧
      (∀ i j : ℕ, ∀ bi bj : BoneState, ∀ ri : Euler3,
        bones[i]? = some bi → bones[j]? = some bj → bi.name = bj.name →
        rest bi.name = some ri →
        ((applyArmRotation rest bones smooth key x y z a).2[i]?).map BoneState.rotation =
          ((applyArmRotation rest bones smooth key x y z a).2[j]?).map BoneState.rotation) ∧
      (applyRotationToAll rest bones smooth key x y z a).1 key = some s ∧
      (∀ i : ℕ, ∀ b : BoneState,
        bones[i]? = some b →
        (applyRotationToAll rest bones smooth key x y z a).2[i]? =
          some ⟨b.name, ⟨restX rest b.name + s.x, restY rest b.name + s.y, s.z⟩⟩) := by
  refine ⟨smoothNext (smooth key) x y z a, applyArm_fst_self rest bones smooth key x y z a h,
    ?_, ?_, ?_, ?_⟩
  · intro i b r hib hr
    rw [applyArm_snd, h]
    simp only [Bool.false_eq_true, if_false, List.getElem?_map, hib, Option.map_some']
    unfold writeBoneRel
    rw [hr]
  · intro i j bi bj ri hib hjb hname hri
    rw [applyArm_snd, h]
    simp only [Bool.false_eq_true, if_false, List.getElem?_map, hib, hjb, Option.map_some']
    unfold writeBoneRel
    have hrj : rest bj.name = some ri := by
      rw [← hname]
      exact hri
    rw [hri, hrj]
  · unfold applyRotationToAll
    rw [h]
    simp [mset_self]
  · intro i b hib
    unfold applyRotationToAll
    rw [h]
    simp only [Bool.false_eq_true, if_false, List.getElem?_map, hib, Option.map_some']
    rfl

/-- Witness for C3 on a rig with two duplicate armatures both holding a
bone named upperarm_l, rest poses captured from them. -/
theorem fanOutAllBones_witness :
    ∃ s : Euler3,
      (applyArmRotation (captureRestPoses dupRestBones) dupRestBones mEmpty "upperarm_l"
          1 2 3 0.35).1 "upperarm_l" = some s ∧
      (∀ i : ℕ, ∀ b : BoneState, ∀ r : Euler3,
        dupRestBones[i]? = some b → captureRestPoses dupRestBones b.name = some r →
        (applyArmRotation (captureRestPoses dupRestBones) dupRestBones mEmpty "upperarm_l"
            1 2 3 0.35).2[i]? =
          some ⟨b.name, ⟨r.x + s.x, r.y + s.y, r.z + s.z⟩⟩) ∧
      (∀ i j : ℕ, ∀ bi bj : BoneState, ∀ ri : Euler3,
        dupRestBones[i]? = some bi → dupRestBones[j]? = some bj → bi.name = bj.name →
        captureRestPoses dupRestBones bi.name = some ri →
        ((applyArmRotation (captureRestPoses dupRestBones) dupRestBones mEmpty "upperarm_l"
            1 2 3 0.35).2[i]?).map BoneState.rotation =
          ((applyArmRotation (captureRestPoses dupRestBones) dupRestBones mEmpty "upperarm_l"
              1 2 3 0.35).2[j]?).map BoneState.rotation) ∧
      (applyRotationToAll (captureRestPoses dupRestBones) dupRestBones mEmpty "upperarm_l"
          1 2 3 0.35).1 "upperarm_l" = some s ∧
      (∀ i : ℕ, ∀ b : BoneState,
        dupRestBones[i]? = some b →
        (applyRotationToAll (captureRestPoses dupRestBones) dupRestBones mEmpty "upperarm_l"
            1 2 3 0.35).2[i]? =
          some ⟨b.name, ⟨restX (captureRestPoses dupRestBones) b.name + s.x,
            restY (captureRestPoses dupRestBones) b.name + s.y, s.z⟩⟩) :=
  fanOutAllBones (captureRestPoses dupRestBones) dupRestBones mEmpty "upperarm_l" 1 2 3 0.35 rfl

/-- Counterexample for C4 as stated: two duplicate-armature bones share the
name upperarm_l with different rest rotations; the first bone is in the
binding set, yet its own rotation (zero) is not the value the captured map
retrieves for it. -/
theorem restPoseByIdentity_cex :
    (⟨"upperarm_l", ⟨0, 0, 0⟩⟩ : BoneState) ∈ dupRestBones ∧
    captureRestPoses dupRestBones "upperarm_l" ≠ some (Euler3.mk 0 0 0) := by
  constructor
  · unfold dupRestBones
    exact List.mem_cons_self _ _
  · unfold captureRestPoses dupRestBones
    simp only [List.foldl_cons, List.foldl_nil, mset, mEmpty, if_pos rfl]
    intro hcontra
    have h1 : (Euler3.mk 1 0 0) = (Euler3.mk 0 0 0) := Option.some.inj hcontra
    have h2 : (1:ℝ) = 0 := congrArg Euler3.x h1
    norm_num at h2

/-- The fold that captures rest poses keyed by name: the retained value for
a name is the rotation of the last bone carrying it. -/
lemma captureRestPoses_aux (bones : List BoneState) :
    ∀ (m : SMap) (n : String),
      bones.foldl (fun acc b => mset acc b.name b.rotation) m n =
        Option.or (lastRestOf bones n) (m n) := by
  induction bones with
  | nil =>
    intro m n
    simp [lastRestOf]
  | cons b bs ih =>
    intro m n
    rw [List.foldl_cons, ih]
    show Option.or (lastRestOf bs n) (mset m b.name b.rotation n) =
      Option.or (lastRestOf (b :: bs) n) (m n)
    cases hlast : lastRestOf bs n with
    | some c =>
      unfold lastRestOf
      rw [hlast]
      rfl
    | none =>
      unfold lastRestOf
      rw [hlast]
      by_cases hbn : b.name = n
      · simp [mset, hbn]
      · have hnb : ¬ n = b.name := fun hc => hbn hc.symm
        simp [mset, hbn, hnb]

/-- C4 amended. The rest-pose map is keyed by bone NAME, not identity: the
value retrievable for a name is the rotation of the last same-named bone
at capture time (so duplicate armatures share one entry), and a per-frame
update never modifies the captured map. -/
theorem restPoseKeyedByName :
    (∀ bones : List BoneState, ∀ n : String,
      captureRestPoses bones n = lastRestOf bones n) ∧
    (∀ dv : DebugValues, ∀ mirrored : Bool, ∀ st : RigState, ∀ fr : Option PoseFrame,
      (frameUpdate dv mirrored st fr).rest = st.rest) := by
  constructor
  · intro bones n
    unfold captureRestPoses
    rw [captureRestPoses_aux bones mEmpty n]
    cases lastRestOf bones n <;> rfl
  · intro dv mirrored st fr
    unfold frameUpdate
    split
    · rfl
    · split
      · rfl
      · cases fr with
        | none => rfl
        | some pose => rfl

/-- Counterexample for C5 as stated: findBoneByPattern, the second cited
resolver, binds the bone upperarm_l_bicep for key leftUpperArm even though
its name contains the excluded marker bicep — its substring pass never
rejects bicep or tricep. -/
theorem upperArmExclusion_cex :
    findBoneByPattern LEFT_UPPER_ARM_PATTERNS [⟨"upperarm_l_bicep", ⟨0, 0, 0⟩⟩] =
      some ⟨"upperarm_l_bicep", ⟨0, 0, 0⟩⟩ ∧
    "bicep" ∈ EXCLUDED_MARKERS ∧
    nameIncludes (lowerChars "upperarm_l_bicep") "bicep" = true := by
  refine ⟨rfl, ?_, by decide⟩
  unfold EXCLUDED_MARKERS
  decide

/-- C5 amended. The useBodyModelRigging upper-arm matcher never selects a
bone whose lowercased name contains an excluded marker, and on a skeleton
holding both upperarm_l and upperarm_l_twist01 both cited resolvers bind
exactly the former; but findBoneByPattern, whose substring pass excludes
only twist, corrective, underscore-delimited in/out, fwd and bck, binds a
bone such as upperarm_l_bicep whose name contains a claimed marker. -/
theorem upperArmExclusion :
    (∀ bones : List BoneState, ∀ b : BoneState, b ∈ collectUpperarmL bones →
      ∀ marker : String, marker ∈ EXCLUDED_MARKERS →
        nameIncludes (lowerChars b.name) marker = false) ∧
    (∀ e1 e2 : Euler3,
      collectUpperarmL [⟨"upperarm_l", e1⟩, ⟨"upperarm_l_twist01", e2⟩] = [⟨"upperarm_l", e1⟩]) ∧
    (∀ e1 e2 : Euler3,
      findBoneByPattern LEFT_UPPER_ARM_PATTERNS
        [⟨"upperarm_l", e1⟩, ⟨"upperarm_l_twist01", e2⟩] = some ⟨"upperarm_l", e1⟩) ∧
    (∀ e : Euler3,
      findBoneByPattern LEFT_UPPER_ARM_PATTERNS [⟨"upperarm_l_bicep", e⟩] =
        some ⟨"upperarm_l_bicep", e⟩) := by
  refine ⟨?_, ?_, ?_, ?_⟩
  · intro bones b hb marker hm
    have hmatch : matchUpperarmL b.name = true := (List.mem_filter.mp hb).2
    unfold matchUpperarmL at hmatch
    simp only [Bool.and_eq_true, Bool.not_eq_true'] at hmatch
    obtain ⟨⟨⟨⟨⟨⟨⟨⟨_, h1⟩, h2⟩, h3⟩, h4⟩, h5⟩, h6⟩, h7⟩, h8⟩ := hmatch
    simp only [EXCLUDED_MARKERS, List.mem_cons, List.not_mem_nil, or_false] at hm
    rcases hm with rfl | rfl | rfl | rfl | rfl | rfl | rfl | rfl <;> assumption
  · intro e1 e2
    unfold collectUpperarmL
    rw [List.filter_cons, List.filter_cons]
    rw [show matchUpperarmL "upperarm_l" = true from by decide]
    rw [show matchUpperarmL "upperarm_l_twist01" = false from by decide]
    simp
  · intro e1 e2
    rfl
  · intro e
    rfl

/-- The length of the zero vector. -/
lemma vLength_zero : vLength ⟨0, 0, 0⟩ = 0 := by
  unfold vLength vLengthSq
  norm_num

/-- three.js normalize keeps the zero vector at zero (length() || 1). -/
lemma threeNormalize_zero : threeNormalize ⟨0, 0, 0⟩ = ⟨0, 0, 0⟩ := by
  unfold threeNormalize
  rw [vLength_zero]
  norm_num

/-- The cross product of zero vectors. -/
lemma vCross_zero : vCross ⟨0, 0, 0⟩ ⟨0, 0, 0⟩ = (⟨0, 0, 0⟩ : Vec3) := by
  unfold vCross
  simp only [Vec3.mk.injEq]
  norm_num

/-- The clamped acos argument always lies in the domain, so the guarded
acos is always defined. -/
lemma acosOpt_clamped (d : ℝ) :
    acosOpt (max (-1) (min 1 d)) = some (Real.arccos (max (-1) (min 1 d))) := by
  unfold acosOpt
  rw [if_pos ⟨le_max_left _ _, max_le (by norm_num) (min_le_left _ _)⟩]

/-- quaternionFromDirections is defined on every input pair: each branch
feeds acos a clamped argument and every normalization is guarded. -/
lemma qfd_isSome (u v : Vec3) : (quaternionFromDirections u v).isSome = true := by
  unfold quaternionFromDirections
  split_ifs
  all_goals first
    | rfl
    | (rw [acosOpt_clamped]
       rfl)

/-- getRotationBetweenVectors is defined on every input pair. -/
lemma grv_isSome (u v : Vec3) : (getRotationBetweenVectors u v).isSome = true := by
  unfold getRotationBetweenVectors
  split_ifs
  all_goals first
    | rfl
    | (rw [acosOpt_clamped]
       rfl)

/-- The dot product of the normalized zero vectors. -/
lemma vDot_normZero : vDot (threeNormalize ⟨0, 0, 0⟩) (threeNormalize ⟨0, 0, 0⟩) = 0 := by
  rw [threeNormalize_zero]
  unfold vDot
  norm_num

/-- Evaluation of quaternionFromDirections on coincident (zero-direction)
input: the guarded pipeline lands in the generic branch with dot 0 and
zero axis, producing the quaternion (0, 0, 0, cos (pi / 4)). -/
lemma qfd_zero :
    quaternionFromDirections ⟨0, 0, 0⟩ ⟨0, 0, 0⟩ = some ⟨0, 0, 0, Real.cos (Real.pi / 4)⟩ := by
  unfold quaternionFromDirections
  rw [vDot_normZero]
  rw [if_neg (by norm_num : ¬ ((0:ℝ) > 0.9999)), if_neg (by norm_num : ¬ ((0:ℝ) < -0.9999))]
  rw [show max (-1:ℝ) (min 1 0) = 0 from by norm_num]
  rw [show acosOpt 0 = some (Real.pi / 2) from by
    unfold acosOpt
    rw [if_pos (by norm_num : (-1:ℝ) ≤ 0 ∧ (0:ℝ) ≤ 1), Real.arccos_zero]]
  rw [Option.map_some']
  rw [threeNormalize_zero, vCross_zero, threeNormalize_zero]
  unfold setFromAxisAngle
  simp only [Option.some.injEq, Quat.mk.injEq]
  refine ⟨by norm_num, by norm_num, by norm_num, ?_⟩
  rw [show Real.pi / 2 / 2 = Real.pi / 4 from by ring]

/-- Evaluation of getRotationBetweenVectors on coincident input: the same
generic branch, the same non-identity result. -/
lemma grv_zero :
    getRotationBetweenVectors ⟨0, 0, 0⟩ ⟨0, 0, 0⟩ = some ⟨0, 0, 0, Real.cos (Real.pi / 4)⟩ := by
  unfold getRotationBetweenVectors
  rw [vDot_normZero]
  rw [if_neg (by norm_num : ¬ ((0:ℝ) > 0.9999)), if_neg (by norm_num : ¬ ((0:ℝ) < -0.9999))]
  rw [show max (-1:ℝ) (min 1 0) = 0 from by norm_num]
  rw [show acosOpt 0 = some (Real.pi / 2) from by
    unfold acosOpt
    rw [if_pos (by norm_num : (-1:ℝ) ≤ 0 ∧ (0:ℝ) ≤ 1), Real.arccos_zero]]
  rw [Option.map_some']
  rw [threeNormalize_zero, vCross_zero, threeNormalize_zero]
  unfold setFromAxisAngle
  simp only [Option.some.injEq, Quat.mk.injEq]
  refine ⟨by norm_num, by norm_num, by norm_num, ?_⟩
  rw [show Real.pi / 2 / 2 = Real.pi / 4 from by ring]

/-- The w component of the degenerate result differs from 1. -/
lemma cos_pi_div_four_ne_one : Real.cos (Real.pi / 4) ≠ 1 := by
  rw [Real.cos_pi_div_four]
  intro h
  have h2 : Real.sqrt 2 = 2 := by linarith
  have h3 := Real.sq_sqrt (by norm_num : (0:ℝ) ≤ 2)
  rw [h2] at h3
  norm_num at h3

/-- Counterexample for C2 as stated: on zero-length (coincident-landmark)
input both direction-to-rotation helpers return the quaternion
(0, 0, 0, cos (pi / 4)), not the identity rotation. -/
theorem degenerateNotIdentity_cex :
    quaternionFromDirections ⟨0, 0, 0⟩ ⟨0, 0, 0⟩ ≠ some qIdentity ∧
    getRotationBetweenVectors ⟨0, 0, 0⟩ ⟨0, 0, 0⟩ ≠ some qIdentity := by
  constructor
  · rw [qfd_zero]
    intro hc
    exact cos_pi_div_four_ne_one (congrArg Quat.w (Option.some.inj hc))
  · rw [grv_zero]
    intro hc
    exact cos_pi_div_four_ne_one (congrArg Quat.w (Option.some.inj hc))

/-- C2 amended. Both direction-to-rotation helpers are defined (NaN-free)
on every input pair, parallel, anti-parallel, near-anti-parallel and
zero-length included: the acos argument is clamped and every
normalization is guarded. On zero-length input, however, the result is
the quaternion (0, 0, 0, cos (pi / 4)) produced by an axis-angle
construction from the zero axis at angle pi / 2, not the identity. -/
theorem rotationAlwaysDefined :
    (∀ u v : Vec3, (quaternionFromDirections u v).isSome = true) ∧
    (∀ u v : Vec3, (getRotationBetweenVectors u v).isSome = true) ∧
    quaternionFromDirections ⟨0, 0, 0⟩ ⟨0, 0, 0⟩ = some ⟨0, 0, 0, Real.cos (Real.pi / 4)⟩ ∧
    getRotationBetweenVectors ⟨0, 0, 0⟩ ⟨0, 0, 0⟩ = some ⟨0, 0, 0, Real.cos (Real.pi / 4)⟩ :=
  ⟨qfd_isSome, grv_isSome, qfd_zero, grv_zero⟩

/-- atan2 on the negative y axis. -/
lemma atan2_neg_zero (y : ℝ) (hy : y < 0) : atan2 y 0 = -(Real.pi / 2) := by
  unfold atan2
  rw [if_neg (lt_irrefl 0), if_neg (lt_irrefl 0), if_neg (not_lt.mpr (le_of_lt hy)), if_pos hy]

/-- The arm ratio of the scenario frame: elbow directly below the shoulder
gives the arms-down ratio 0 exactly. -/
lemma calcArmRatio_ex : calcArmRatio ⟨0.3, 0.4⟩ ⟨0.3, 0.6⟩ = 0 := by
  show max 0 (min 1
    ((atan2 (-((0.6:ℝ) - 0.4)) |(0.3:ℝ) - 0.3| + Real.pi / 2) / (Real.pi / 2))) = 0
  rw [show |(0.3:ℝ) - 0.3| = 0 from by norm_num]
  rw [show -((0.6:ℝ) - 0.4) = -0.2 from by norm_num]
  rw [atan2_neg_zero (-0.2) (by norm_num)]
  rw [show -(Real.pi / 2) + Real.pi / 2 = 0 from by ring]
  rw [zero_div]
  norm_num

/-- The arms-down calibration endpoint in radians. -/
lemma mapToYRotation_zero : mapToYRotation 0 = 13 * DEG2RAD := by
  unfold mapToYRotation Y_ROTATION_ARMS_DOWN Y_ROTATION_T_POSE
  ring

/-- One scenario step is the tracking-mode update on the scenario frame. -/
lemma stepC1_unfold (st : RigState) :
    stepC1 st = trackingModeUpdate false defaultDebugValues st poseC1 := by
  unfold stepC1 frameUpdate
  rfl

/-- The left-upper-arm smoothing entry after one tracking-mode update. -/
lemma tracking_smooth_ul (mirrored : Bool) (dv : DebugValues) (st : RigState) (pose : PoseFrame)
    (h : st.upperarmLBones.isEmpty = false) :
    (trackingModeUpdate mirrored dv st pose).smooth "upperarm_l" =
      some (smoothNext (st.smooth "upperarm_l") 0
        (mapToYRotation (calcArmRatio
          (if mirrored then pose RIGHT_SHOULDER else pose LEFT_SHOULDER)
          (if mirrored then pose RIGHT_ELBOW else pose LEFT_ELBOW))) 0 dv.smoothingFactor) := by
  unfold trackingModeUpdate
  dsimp only
  rw [applyArm_fst_other (h := by decide), applyArm_fst_other (h := by decide),
    applyArm_fst_other (h := by decide), applyArm_fst_self (h := h)]

/-- The left-upper-arm smoothing entry after one scenario step: the filter
update toward the 13-degree target. -/
lemma stepC1_smooth_ul (st : RigState) (h : st.upperarmLBones.isEmpty = false) :
    (stepC1 st).smooth "upperarm_l" =
      some (smoothNext (st.smooth "upperarm_l") 0 (13 * DEG2RAD) 0 0.35) := by
  rw [stepC1_unfold, tracking_smooth_ul false defaultDebugValues st poseC1 h]
  show some (smoothNext (st.smooth "upperarm_l") 0
    (mapToYRotation (calcArmRatio ⟨0.3, 0.4⟩ ⟨0.3, 0.6⟩)) 0 0.35) = _
  rw [calcArmRatio_ex, mapToYRotation_zero]

/-- Mapping a list keeps its emptiness. -/
lemma listMap_isEmpty {α β : Type} (f : α → β) (l : List α) : (l.map f).isEmpty = l.isEmpty := by
  cases l <;> rfl

/-- A scenario step does not change whether the left-upper-arm binding is
empty. -/
lemma stepC1_ulBones (st : RigState) :
    (stepC1 st).upperarmLBones.isEmpty = st.upperarmLBones.isEmpty := by
  rw [stepC1_unfold]
  unfold trackingModeUpdate
  dsimp only
  rw [applyArm_snd]
  split
  · rfl
  · exact listMap_isEmpty _ _

/-- The left-upper-arm binding stays non-empty along the scenario. -/
lemma iterC1_ulBones (n : ℕ) : ((stepC1^[n]) rigC1).upperarmLBones.isEmpty = false := by
  induction n with
  | zero => rfl
  | succ k ih =>
    rw [Function.iterate_succ_apply', stepC1_ulBones]
    exact ih

/-- After any positive number of scenario cycles the smoothed left upper
arm sits exactly at the 13-degree target: initialized there on the first
cycle and a fixed point of the filter afterwards. -/
lemma iterC1_smooth (n : ℕ) :
    ((stepC1^[n + 1]) rigC1).smooth "upperarm_l" = some ⟨0, 13 * DEG2RAD, 0⟩ := by
  induction n with
  | zero =>
    rw [Function.iterate_one, stepC1_smooth_ul rigC1 rfl]
    rfl
  | succ k ih =>
    rw [Function.iterate_succ_apply', stepC1_smooth_ul _ (iterC1_ulBones (k + 1)), ih]
    unfold smoothNext smoothStep
    simp only [Option.some.injEq, Euler3.mk.injEq]
    refine ⟨by ring, by ring, by ring⟩

/-- C1. Strategy B on the scenario frame: the concrete ratio is exactly 0
and the rotation exactly 13 degrees; in general the ratio is the clamped
linear image of the vertical arm angle and the rotation the linear
interpolation between the calibration endpoints; and within 5 update
cycles at factor 0.35 the smoothed value is within 1 degree of the
target. -/
theorem strategyB_endToEnd :
    (calcArmRatio ⟨0.3, 0.4⟩ ⟨0.3, 0.6⟩ = 0 ∧
      mapToYRotation (calcArmRatio ⟨0.3, 0.4⟩ ⟨0.3, 0.6⟩) = 13 * DEG2RAD) ∧
    (∀ shoulder elbow : Landmark,
      calcArmRatio shoulder elbow = ratioFromAngle (verticalArmAngle shoulder elbow)) ∧
    (∀ r : ℝ, mapToYRotation r = lerpCalibration r) ∧
    (∃ s : Euler3, ((stepC1^[5]) rigC1).smooth "upperarm_l" = some s ∧
      |s.y - 13 * DEG2RAD| < 1 * DEG2RAD) := by
  refine ⟨⟨calcArmRatio_ex, ?_⟩, ?_, ?_, ?_⟩
  · rw [calcArmRatio_ex, mapToYRotation_zero]
  · intro shoulder elbow
    unfold calcArmRatio ratioFromAngle verticalArmAngle
    congr 2
    ring
  · intro r
    unfold mapToYRotation lerpCalibration Y_ROTATION_ARMS_DOWN Y_ROTATION_T_POSE
    ring
  · refine ⟨⟨0, 13 * DEG2RAD, 0⟩, iterC1_smooth 4, ?_⟩
    show |13 * DEG2RAD - 13 * DEG2RAD| < 1 * DEG2RAD
    rw [sub_self, abs_zero, one_mul]
    unfold DEG2RAD
    positivity

/-- applyArmRotation reads the incoming smoothing map only at its own key:
maps agreeing there (and at the observed key) give equal lookups. -/
lemma applyArm_fst_congr (rest : SMap) (bones : List BoneState) (sm1 sm2 : SMap)
    (key q : String) (x y z a : ℝ)
    (hkey : sm1 key = sm2 key) (hq : sm1 q = sm2 q) :
    (applyArmRotation rest bones sm1 key x y z a).1 q =
      (applyArmRotation rest bones sm2 key x y z a).1 q := by
  rw [applyArm_fst, applyArm_fst, hkey]
  split
  · exact hq
  · unfold mset
    split
    · rfl
    · exact hq

/-- Two applyArmRotation passes on distinct keys commute as far as the
resulting smoothing lookups are concerned. -/
lemma applyArm_fst_comm (rest : SMap) (bs1 bs2 : List BoneState) (m : SMap) (k1 k2 : String)
    (x1 y1 z1 x2 y2 z2 a : ℝ) (hne : k1 ≠ k2) (q : String) :
    (applyArmRotation rest bs2 ((applyArmRotation rest bs1 m k1 x1 y1 z1 a).1)
        k2 x2 y2 z2 a).1 q =
      (applyArmRotation rest bs1 ((applyArmRotation rest bs2 m k2 x2 y2 z2 a).1)
        k1 x1 y1 z1 a).1 q := by
  simp only [applyArm_fst]
  by_cases h1 : bs1.isEmpty <;> by_cases h2 : bs2.isEmpty <;> simp [h1, h2]
  rw [mset_other m k1 k2 _ (Ne.symm hne), mset_other m k2 k1 _ hne]
  by_cases hq1 : q = k1 <;> by_cases hq2 : q = k2
  · exact absurd (hq1.symm.trans hq2) hne
  · simp [mset, hq1, hq2, hne, Ne.symm hne]
  · simp [mset, hq1, hq2, hne, Ne.symm hne]
  · simp [mset, hq1, hq2, hne, Ne.symm hne]

/-- The bone output of applyArmRotation depends on the incoming smoothing
map only through its own key. -/
lemma applyArm_snd_congr (rest : SMap) (bones : List BoneState) (sm1 sm2 : SMap) (key : String)
    (x y z a : ℝ) (h : sm1 key = sm2 key) :
    (applyArmRotation rest bones sm1 key x y z a).2 =
      (applyArmRotation rest bones sm2 key x y z a).2 := by
  rw [applyArm_snd, applyArm_snd, h]

/-- C8. When the slider values (converted to radians) equal the rotations
the tracked path derives from the landmarks, the manual path, which never
reads the frame, produces the same downstream smoothing state and the
same bone rotations as the tracked path. -/
theorem manualTrackedEquiv (dvM dvT : DebugValues) (mir : Bool) (st : RigState)
    (pose : PoseFrame) (fr : Option PoseFrame)
    (hM : dvM.useManualRotations = true)
    (hTman : dvT.useManualRotations = false)
    (hTtrack : dvT.enableTracking = true)
    (ha : dvM.smoothingFactor = dvT.smoothingFactor)
    (hULx : dvM.leftUpperArmX * DEG2RAD = 0)
    (hULy : dvM.leftUpperArmY * DEG2RAD =
      mapToYRotation (calcArmRatio (if mir then pose RIGHT_SHOULDER else pose LEFT_SHOULDER)
        (if mir then pose RIGHT_ELBOW else pose LEFT_ELBOW)))
    (hULz : dvM.leftUpperArmZ * DEG2RAD = 0)
    (hLLx : dvM.leftLowerArmX * DEG2RAD = 0)
    (hLLy : dvM.leftLowerArmY * DEG2RAD = 0)
    (hLLz : dvM.leftLowerArmZ * DEG2RAD = 0)
    (hURx : dvM.rightUpperArmX * DEG2RAD = 0)
    (hURy : dvM.rightUpperArmY * DEG2RAD =
      mapToYRotation (calcArmRatio (if mir then pose LEFT_SHOULDER else pose RIGHT_SHOULDER)
        (if mir then pose LEFT_ELBOW else pose RIGHT_ELBOW)))
    (hURz : dvM.rightUpperArmZ * DEG2RAD = 0)
    (hLRx : dvM.rightLowerArmX * DEG2RAD = 0)
    (hLRy : dvM.rightLowerArmY * DEG2RAD = 0)
    (hLRz : dvM.rightLowerArmZ * DEG2RAD = 0) :
    (∀ k : String, (frameUpdate dvM mir st fr).smooth k =
      (frameUpdate dvT mir st (some pose)).smooth k) ∧
    (frameUpdate dvM mir st fr).upperarmLBones =
      (frameUpdate dvT mir st (some pose)).upperarmLBones ∧
    (frameUpdate dvM mir st fr).upperarmRBones =
      (frameUpdate dvT mir st (some pose)).upperarmRBones ∧
    (frameUpdate dvM mir st fr).lowerarmLBones =
      (frameUpdate dvT mir st (some pose)).lowerarmLBones ∧
    (frameUpdate dvM mir st fr).lowerarmRBones =
      (frameUpdate dvT mir st (some pose)).lowerarmRBones := by
  have hfM : frameUpdate dvM mir st fr = manualModeUpdate dvM st := by
    unfold frameUpdate
    rw [hM]
    cases htr : dvM.enableTracking <;> rfl
  have hfT : frameUpdate dvT mir st (some pose) = trackingModeUpdate mir dvT st pose := by
    unfold frameUpdate
    rw [hTman, hTtrack]
    rfl
  rw [hfM, hfT]
  unfold manualModeUpdate trackingModeUpdate
  dsimp only
  simp only [hULx, hULy, hULz, hLLx, hLLy, hLLz, hURx, hURy, hURz, hLRx, hLRy, hLRz, ha]
  refine ⟨?_, ?_, ?_, ?_, ?_⟩
  case refine_2 => first | rfl | trivial
  · intro k
    exact applyArm_fst_congr _ _ _ _ _ _ _ _ _ _
      (applyArm_fst_comm _ _ _ _ _ _ _ _ _ _ _ _ _ (by decide) "lowerarm_r")
      (applyArm_fst_comm _ _ _ _ _ _ _ _ _ _ _ _ _ (by decide) k)
  · exact applyArm_snd_congr _ _ _ _ _ _ _ _ _
      (applyArm_fst_other _ _ _ _ _ _ _ _ _ (by decide))
  · exact applyArm_snd_congr _ _ _ _ _ _ _ _ _
      (applyArm_fst_other _ _ _ _ _ _ _ _ _ (by decide)).symm
  · exact applyArm_snd_congr _ _ _ _ _ _ _ _ _
      (applyArm_fst_comm _ _ _ _ _ _ _ _ _ _ _ _ _ (by decide) "lowerarm_r")

/-- Witness for C8: sliders (0, 13, 0) on both upper arms at factor 0.35
against the scenario frame, on the scenario rig. -/
theorem manualTrackedEquiv_witness :
    (frameUpdate ⟨0, 13, 0, 0, 0, 0, 0, 13, 0, 0, 0, 0, 0.35, true, true⟩
        false rigC1 none).upperarmLBones =
      (frameUpdate defaultDebugValues false rigC1 (some poseC1)).upperarmLBones :=
  (manualTrackedEquiv ⟨0, 13, 0, 0, 0, 0, 0, 13, 0, 0, 0, 0, 0.35, true, true⟩
    defaultDebugValues false rigC1 poseC1 none rfl rfl rfl rfl
    (zero_mul DEG2RAD)
    (by
      show (13:ℝ) * DEG2RAD = mapToYRotation (calcArmRatio ⟨0.3, 0.4⟩ ⟨0.3, 0.6⟩)
      rw [calcArmRatio_ex, mapToYRotation_zero])
    (zero_mul DEG2RAD) (zero_mul DEG2RAD) (zero_mul DEG2RAD) (zero_mul DEG2RAD)
    (zero_mul DEG2RAD)
    (by
      show (13:ℝ) * DEG2RAD = mapToYRotation (calcArmRatio ⟨0.3, 0.4⟩ ⟨0.3, 0.6⟩)
      rw [calcArmRatio_ex, mapToYRotation_zero])
    (zero_mul DEG2RAD) (zero_mul DEG2RAD) (zero_mul DEG2RAD) (zero_mul DEG2RAD)).2.1

end VTO
